import Mathlib

set_option maxRecDepth 16384
set_option maxHeartbeats 1000000

/-!
Verification of the Scene-to-Prompt Compositor of the AI-Story-Display
repository.  The definitions below are a shallow embedding, translated
function by function from `src/story_generator.py` (class `StoryGenerator`),
`src/test_prompt_generation.py` (class `PromptTester`) and
`src/image_generator_lora.py` (class `LoRAImageGenerator`).

Modelling conventions:
  * Python `str` is Lean `String`; all string primitives (`lower`, `strip`,
    `replace`, `split('.')`, `find`, slicing, `in`, `' '.join`) are
    re-implemented below on `List Char` with CPython semantics for the
    ASCII inputs the program manipulates.
  * Python `dict` literals and `dict.get` are modelled by association lists
    in literal order with a last-binding-wins lookup (`pyDictGet`), which is
    exactly CPython's overwrite-on-duplicate-key behaviour.
  * JSON numbers (the LoRA strengths `0.8` / `0.75`) only ever flow into
    f-strings, so they are modelled by their `str(float)` decimal renderings
    `"0.8"` / `"0.75"`; no arithmetic is ever performed on them.
  * A Python dict field that may be absent becomes an `Option` field.
-/

/-- Character-wise ASCII lowering, matching CPython `str.lower` on the ASCII
text this program manipulates. -/
def pyLower (s : String) : String := String.mk (s.data.map Char.toLower)

/-- The whitespace set stripped by CPython `str.strip()` (ASCII part). -/
def pySpaceChar (c : Char) : Bool :=
  c == ' ' || c == '\t' || c == '\n' || c == '\r' || c == '\x0b' || c == '\x0c'

/-- CPython `str.strip()`: drop whitespace from both ends. -/
def pyStrip (s : String) : String :=
  String.mk (((s.data.dropWhile pySpaceChar).reverse.dropWhile pySpaceChar).reverse)

/-- Does list `s` start with list `pat`? -/
def listStartsWith : List Char → List Char → Bool
  | _, [] => true
  | [], _ :: _ => false
  | a :: s, b :: t => a == b && listStartsWith s t

/-- Index of the first occurrence of `pat` in `s` (CPython `str.find`,
returning `none` instead of `-1`). -/
def findSubL : List Char → List Char → Option Nat
  | [], pat => if listStartsWith [] pat then some 0 else none
  | c :: rest, pat =>
    if listStartsWith (c :: rest) pat then some 0
    else (findSubL rest pat).map (· + 1)

/-- CPython `pat in s` substring test. -/
def containsSub (s pat : String) : Bool := (findSubL s.data pat.data).isSome

/-- CPython `s.find(pat)`; the program only calls `find` after an `in` guard,
so the absent case (defaulted to 0 here) is never reached. -/
def pyFindD (s pat : String) : Nat := (findSubL s.data pat.data).getD 0

/-- Structural working loop of `replaceAllL`: the fuel only bounds the
recursion and never runs out when it starts at the text's length, since
every step consumes at least one character. -/
def replaceFuel (pat rep : List Char) : Nat → List Char → List Char
  | _, [] => []
  | 0, s => s
  | fuel + 1, c :: rest =>
    if listStartsWith (c :: rest) pat && !pat.isEmpty then
      rep ++ replaceFuel pat rep fuel (rest.drop (pat.length - 1))
    else
      c :: replaceFuel pat rep fuel rest

/-- Left-to-right non-overlapping replacement of every occurrence of `pat`,
matching CPython `str.replace` for the non-empty patterns the program uses
(an empty pattern is returned unchanged here; the source never passes one
except via an empty character name, which no claim exercises). -/
def replaceAllL (pat rep s : List Char) : List Char := replaceFuel pat rep s.length s

/-- CPython `s.replace(pat, rep)`. -/
def pyReplace (s pat rep : String) : String :=
  String.mk (replaceAllL pat.data rep.data s.data)

/-- CPython `s.split(sep)` for a one-character separator: always returns at
least one piece, and empty pieces are kept. -/
def splitOnCharL (sep : Char) : List Char → List (List Char)
  | [] => [[]]
  | c :: rest =>
    let r := splitOnCharL sep rest
    if c == sep then [] :: r
    else
      match r with
      | [] => [[c]]
      | p :: ps => (c :: p) :: ps

/-- CPython `s.split('.')`. -/
def splitOnDot (s : String) : List String := (splitOnCharL '.' s.data).map String.mk

/-- CPython `sep.join(parts)`. -/
def pyJoin (sep : String) : List String → String
  | [] => ""
  | [a] => a
  | a :: b :: rest => a ++ sep ++ pyJoin sep (b :: rest)

/-- CPython slice `s[a:b]` for non-negative clamped bounds. -/
def pySlice (s : String) (a b : Nat) : String := String.mk ((s.data.take b).drop a)

/-- CPython slice `s[:b]`. -/
def pyTakeStr (s : String) (b : Nat) : String := String.mk (s.data.take b)

/-- Does string `s` start with string `pat`? -/
def strStartsWith (s pat : String) : Bool := listStartsWith s.data pat.data

/-- Index of the last `'.'` in a list of characters. -/
def lastDotIdx : List Char → Option Nat
  | [] => none
  | c :: rest =>
    match lastDotIdx rest with
    | some i => some (i + 1)
    | none => if c == '.' then some 0 else none

/-- CPython `os.path.splitext(p)[0]` for the plain (separator-free) file
names stored in the adapter registry: cut at the last dot unless every
character before it is itself a dot. -/
def splitextRoot (p : String) : String :=
  match lastDotIdx p.data with
  | none => p
  | some d =>
    if (p.data.take d).all (fun c => c == '.') then p
    else String.mk (p.data.take d)

/-- CPython `dict.get` over an association list written in literal order:
a duplicated key is overwritten by the later binding, so lookup takes the
last match. -/
def pyDictGet {α : Type} (d : List (String × α)) (k : String) : Option α :=
  (d.reverse.find? (fun p => p.1 == k)).map (·.2)

/-- One character record as read by `build_page_prompts`: the fantasy name
plus the two `visual_design` strings it consumes (a missing key is the empty
string, exactly what the source's chained `.get(..., {}) .get(..., '')`
produces). -/
structure Character where
  fantasy_name : String
  prompt_palette : String := ""
  prompt_keywords : String := ""
deriving Repr, DecidableEq

/-- The character registry: the two fixed keys of `characters.json`. -/
structure Characters where
  character_1 : Character
  character_2 : Character
deriving Repr, DecidableEq

/-- One adapter registration (`lora_config.json` entry); every key may be
individually absent, hence the `Option` fields. -/
structure LoraRecord where
  trigger_word : Option String := none
  lora_filename : Option String := none
  default_strength : Option String := none
deriving Repr, DecidableEq

/-- One story page as consumed by `build_page_prompts` (the page number is
never read there). -/
structure PageData where
  text : String := ""
  scene_description : String := ""
deriving Repr, DecidableEq

/-- The four prompt strings returned by `build_page_prompts`. -/
structure PromptBundle where
  character_1_prompt : String
  character_2_prompt : String
  scene_prompt : String
  negative_prompt : String
deriving Repr, DecidableEq

/-- `StoryGenerator._extract_outfit_colors`: collect the fixed colour words
occurring in the lowered text, in list order, suffixed with `" clothing"`. -/
def extract_outfit_colors (outfit_description : String) : String :=
  let colors : List String :=
    ["black", "white", "red", "blue", "green", "yellow", "purple",
     "brown", "grey", "gray", "silver", "gold", "golden", "dark",
     "light", "deep", "bright"]
  let outfit_lower := pyLower outfit_description
  let found_colors := colors.filter (fun color => containsSub outfit_lower color)
  if found_colors.isEmpty then "" else pyJoin ", " found_colors ++ " clothing"

/-- `StoryGenerator._extract_character_action`: keep (up to two) sentences of
the already-lowered combined text that contain the lowered character name;
each kept sentence is stripped, has the original-case `char_name` replaced
away (a no-op on lowered text whenever the name contains an upper-case
letter), and must have length above 5. -/
def extract_character_action (text char_name_lower char_name : String) : String :=
  let sentences := splitOnDot text
  let actions := sentences.filterMap (fun sentence =>
    if containsSub (pyLower sentence) char_name_lower then
      let s1 := pyStrip sentence
      let s2 := pyStrip (pyReplace s1 char_name "")
      if s2 ≠ "" ∧ s2.length > 5 then some s2 else none
    else none)
  if actions.isEmpty then "standing confidently" else pyJoin ", " (actions.take 2)

/-- The position-keyword `elif` chain of `_extract_positioning`, in source
order, paired with the position tag each keyword yields. -/
def positionKeywordPairs : List (String × String) :=
  [("on the left", "on the left"),
   ("on the right", "on the right"),
   ("center", "in the center"),
   ("foreground", "in the foreground"),
   ("background", "in the background")]

/-- One condition of the `elif` chain of `_extract_positioning`: the keyword
occurs in the lowered scene and the lowered character name occurs in the
prefix `scene_lower[:scene_lower.find(keyword) + 20]`. -/
def keywordAttributed (scene_lower char_lower kw : String) : Bool :=
  containsSub scene_lower kw &&
    containsSub (pyTakeStr scene_lower (pyFindD scene_lower kw + 20)) char_lower

/-- The value the `elif` chain of `_extract_positioning` assigns to one
character: the tag of the first matching keyword, else the empty string. -/
def explicitPosition (scene_lower char_lower : String) : String :=
  match positionKeywordPairs.find? (fun p => keywordAttributed scene_lower char_lower p.1) with
  | some p => p.2
  | none => ""

/-- `StoryGenerator._extract_positioning`.  The Python `position_map` is a
dict keyed by the two character names: when the names coincide it has a
single entry, written twice by the loop and defaulted once, which the first
branch below reproduces. -/
def extract_positioning (scene_desc char1_name char2_name : String) : String :=
  let scene_lower := pyLower scene_desc
  if char1_name = char2_name then
    let p := explicitPosition scene_lower (pyLower char1_name)
    let p := if p = "" then "on the right" else p
    char1_name ++ " " ++ p ++ ", " ++ char2_name ++ " " ++ p
  else
    let p1 := explicitPosition scene_lower (pyLower char1_name)
    let p2 := explicitPosition scene_lower (pyLower char2_name)
    let p1 := if p1 = "" then "on the right" else p1
    let p2 := if p2 = "" then "on the left" else p2
    char1_name ++ " " ++ p1 ++ ", " ++ char2_name ++ " " ++ p2

/-- The fixed setting-keyword list of `_extract_environment`. -/
def setting_keywords : List String :=
  ["forest", "clearing", "village", "temple", "ruins", "cave",
   "lighting", "sunlight", "shadows", "atmosphere", "mood",
   "cinematic", "illustration", "fantasy", "dramatic"]

/-- Does a lowered sentence contain some setting keyword? -/
def hasSettingB (sentence_lower : String) : Bool :=
  setting_keywords.any (fun keyword => containsSub sentence_lower keyword)

/-- Does a lowered sentence mention either character (lowered name)? -/
def hasCharacterB (sentence_lower char1_name char2_name : String) : Bool :=
  containsSub sentence_lower (pyLower char1_name) ||
    containsSub sentence_lower (pyLower char2_name)

/-- `StoryGenerator._extract_environment`: keep each sentence that has a
setting keyword or mentions neither character; join the stripped kept
sentences with `". "`, falling back to the constant only when none is kept. -/
def extract_environment (scene_desc char1_name char2_name : String) : String :=
  let sentences := splitOnDot scene_desc
  let env_sentences := sentences.filterMap (fun sentence =>
    let sentence_lower := pyLower sentence
    if hasSettingB sentence_lower || !hasCharacterB sentence_lower char1_name char2_name then
      some (pyStrip sentence)
    else none)
  if env_sentences.isEmpty then "fantasy illustration, cinematic lighting, high detail"
  else pyJoin ". " env_sentences

/-- `StoryGenerator._build_character_prompt`: the `' '.join` of the adapter
tag, the trigger word, always an action slot, then the outfit cue and the
prompt keywords when non-empty.  `char_name` is accepted and ignored exactly
as in the source. -/
def build_character_prompt (lora_file strength trigger_word char_name action outfit_cue prompt_keywords : String) : String :=
  let prompt_parts := ["<lora:" ++ lora_file ++ ":" ++ strength ++ ">", trigger_word]
  let prompt_parts :=
    if action ≠ "" ∧ action ≠ "standing confidently" then prompt_parts ++ [action]
    else prompt_parts ++ ["standing confidently"]
  let prompt_parts := if outfit_cue ≠ "" then prompt_parts ++ [outfit_cue] else prompt_parts
  let prompt_parts := if prompt_keywords ≠ "" then prompt_parts ++ [prompt_keywords] else prompt_parts
  let _ := char_name
  pyJoin " " prompt_parts

/-- `StoryGenerator._build_scene_prompt`: `', '.join` of the non-empty
environment and positioning strings plus the constant style suffix. -/
def build_scene_prompt (environment_desc positioning char1_name char2_name : String) : String :=
  let parts := (if environment_desc ≠ "" then [environment_desc] else [])
    ++ (if positioning ≠ "" then [positioning] else [])
    ++ ["cinematic lighting, fantasy illustration, high detail"]
  let _ := char1_name
  let _ := char2_name
  pyJoin ", " parts

/-- The four sentence-initial pronoun rewrites at the head of
`build_page_prompts` (source lines 165-168), in source order. -/
def pronoun_rewrite (scene_desc char1_name char2_name : String) : String :=
  let s := pyReplace scene_desc ". She " (". " ++ char2_name ++ " ")
  let s := pyReplace s ". He " (". " ++ char1_name ++ " ")
  let s := pyReplace s ". Her " (". " ++ char2_name ++ "\x27s ")
  pyReplace s ". His " (". " ++ char1_name ++ "\x27s ")

/-- `StoryGenerator.build_page_prompts`, over a character registry, an
adapter registry (association list, possibly lacking entries or fields) and
one page. -/
def build_page_prompts (chars : Characters) (loras : List (String × LoraRecord)) (page : PageData) : PromptBundle :=
  let char1 := chars.character_1
  let char2 := chars.character_2
  let char1_name := char1.fantasy_name
  let char2_name := char2.fantasy_name
  let char1_lora := (pyDictGet loras char1_name).getD {}
  let char2_lora := (pyDictGet loras char2_name).getD {}
  let char1_trigger := char1_lora.trigger_word.getD (pyReplace (pyLower char1_name) " " "_")
  let char2_trigger := char2_lora.trigger_word.getD (pyReplace (pyLower char2_name) " " "_")
  let char1_lora_file := splitextRoot (char1_lora.lora_filename.getD (pyReplace char1_name " " "" ++ ".safetensors"))
  let char2_lora_file := splitextRoot (char2_lora.lora_filename.getD (pyReplace char2_name " " "" ++ ".safetensors"))
  let char1_strength := char1_lora.default_strength.getD "0.8"
  let char2_strength := char2_lora.default_strength.getD "0.75"
  let char1_outfit_cue := extract_outfit_colors char1.prompt_palette
  let char2_outfit_cue := extract_outfit_colors char2.prompt_palette
  let char1_prompt_keywords := extract_outfit_colors char1.prompt_keywords
  let char2_prompt_keywords := extract_outfit_colors char2.prompt_keywords
  let scene_desc := pronoun_rewrite page.scene_description char1_name char2_name
  let page_text := page.text
  let combined := pyLower scene_desc ++ " " ++ pyLower page_text
  let char1_action := extract_character_action combined (pyLower char1_name) char1_name
  let char2_action := extract_character_action combined (pyLower char2_name) char2_name
  let positioning := extract_positioning scene_desc char1_name char2_name
  let environment_desc := extract_environment scene_desc char1_name char2_name
  { character_1_prompt := build_character_prompt char1_lora_file char1_strength char1_trigger
      char1_name char1_action char1_outfit_cue char1_prompt_keywords
    character_2_prompt := build_character_prompt char2_lora_file char2_strength char2_trigger
      char2_name char2_action char2_outfit_cue char2_prompt_keywords
    scene_prompt := build_scene_prompt environment_desc positioning char1_name char2_name
    negative_prompt := "low quality, blurry, extra people, watermark, text, deformed, bad anatomy, multiple faces, distorted perspective" }

/-- The default adapter registry that `StoryGenerator.load_lora_config`
synthesizes when `lora_config.json` is absent, in dict-literal order. -/
def load_lora_config_default (chars : Characters) : List (String × LoraRecord) :=
  let char1_name := chars.character_1.fantasy_name
  let char2_name := chars.character_2.fantasy_name
  [(char1_name,
    { trigger_word := some (pyReplace (pyLower char1_name) " " "_"),
      lora_filename := some (pyReplace char1_name " " "" ++ ".safetensors"),
      default_strength := some "0.8" }),
   (char2_name,
    { trigger_word := some (pyReplace (pyLower char2_name) " " "_"),
      lora_filename := some (pyReplace char2_name " " "" ++ ".safetensors"),
      default_strength := some "0.75" })]

/-- CPython truthiness of one looked-up registry entry in
`generate_story_image_with_loras`: absent (`None`) or an empty dict is
falsy.  Only the keys the compositor reads are modelled. -/
def loraEntryTruthy : Option LoraRecord → Bool
  | none => false
  | some r => !(r.trigger_word == none && r.lora_filename == none && r.default_strength == none)

/-- The registration check at the head of
`LoRAImageGenerator.generate_story_image_with_loras`: raise when no registry
was loaded (`load_lora_config` returned `None` for a missing file) or when
either character's entry is missing or empty; otherwise proceed. -/
def generate_story_image_check (loras : Option (List (String × LoraRecord))) (char1_name char2_name : String) : Except String Unit :=
  match loras with
  | none => .error "No LoRAs loaded! Train LoRAs first with lora_trainer.py"
  | some l =>
    if !loraEntryTruthy (pyDictGet l char1_name) || !loraEntryTruthy (pyDictGet l char2_name) then
      .error "Missing LoRAs"
    else .ok ()

/-- `PromptTester._extract_position` from `src/test_prompt_generation.py`:
the window-based positional heuristic of the test script. -/
def extract_position (scene_desc char_name : String) : String :=
  let scene_lower := pyLower scene_desc
  let char_lower := pyLower char_name
  match findSubL scene_lower.data char_lower.data with
  | none => "in center"
  | some char_index =>
    let window := pySlice scene_lower (char_index - 50) (char_index + 100)
    if containsSub window "on the right" || containsSub window "to the right" then "on the right"
    else if containsSub window "on the left" || containsSub window "to the left" then "on the left"
    else if containsSub window "center" || containsSub window "middle" then "in center"
    else if containsSub window "foreground" then "in foreground"
    else if containsSub window "background" then "in background"
    else "in center"

/-! ### Helper lemmas shared by the claim theorems -/

/-- A string is determined by its character list. -/
lemma str_data_eq {a b : String} (h : a.data = b.data) : a = b := by
  cases a
  cases b
  exact congrArg String.mk h

/-- A list starts with any of its own front segments. -/
lemma listStartsWith_append (u v : List Char) : listStartsWith (u ++ v) u = true := by
  induction u with
  | nil =>
    cases v <;> rfl
  | cons c rest ih =>
    simp [listStartsWith, ih]

/-- Extending both the haystack and the pattern by the same front segment
preserves the starts-with relation. -/
lemma listStartsWith_mono (x : List Char) {u v : List Char}
    (h : listStartsWith u v = true) : listStartsWith (x ++ u) (x ++ v) = true := by
  induction x with
  | nil => simpa using h
  | cons c rest ih => simp [listStartsWith, ih]

/-- A pattern can be shrunk on the right. -/
lemma listStartsWith_shrink {s : List Char} (u : List Char) {v : List Char}
    (h : listStartsWith s (u ++ v) = true) : listStartsWith s u = true := by
  induction u generalizing s with
  | nil =>
    cases s <;> rfl
  | cons b bs ih =>
    cases s with
    | nil => simp [listStartsWith] at h
    | cons a as =>
      simp only [List.cons_append, listStartsWith, Bool.and_eq_true] at h ⊢
      exact ⟨h.1, ih h.2⟩

/-- If the pattern does not occur, the replacement loop is the identity for
any amount of fuel. -/
lemma replaceFuel_of_none (pat rep : List Char) :
    ∀ (fuel : Nat) (s : List Char), findSubL s pat = none →
      replaceFuel pat rep fuel s = s := by
  intro fuel
  induction fuel with
  | zero => intro s _; cases s <;> rfl
  | succ n ih =>
    intro s h
    cases s with
    | nil => rfl
    | cons c rest =>
      simp only [findSubL] at h
      by_cases hs : listStartsWith (c :: rest) pat = true
      · simp [hs] at h
      · rw [Bool.not_eq_true] at hs
        simp only [hs, Bool.false_eq_true, if_false, Option.map_eq_none'] at h
        rw [replaceFuel]
        simp [hs, ih rest h]

/-- If the pattern does not occur, `replaceAllL` is the identity. -/
lemma replaceAllL_of_none (pat rep : List Char) :
    ∀ s : List Char, findSubL s pat = none → replaceAllL pat rep s = s :=
  fun s h => replaceFuel_of_none pat rep s.length s h

/-- If the pattern does not occur, `pyReplace` is the identity. -/
lemma pyReplace_of_not_contains (s pat rep : String)
    (h : containsSub s pat = false) : pyReplace s pat rep = s := by
  unfold containsSub at h
  have hn : findSubL s.data pat.data = none := by
    cases hf : findSubL s.data pat.data with
    | none => rfl
    | some i => rw [hf] at h; simp at h
  unfold pyReplace
  rw [replaceAllL_of_none _ _ _ hn]

/-- A `filterMap` whose function answers `some` on every element is a `map`. -/
lemma filterMap_eq_map_of {α β : Type} (l : List α) (f : α → Option β) (g : α → β)
    (h : ∀ a ∈ l, f a = some (g a)) : l.filterMap f = l.map g := by
  induction l with
  | nil => rfl
  | cons a rest ih =>
    rw [List.filterMap_cons, h a (List.mem_cons_self a rest), List.map_cons,
      ih (fun b hb => h b (List.mem_cons_of_mem a hb))]

/-- CPython `split` never returns an empty list of pieces. -/
lemma splitOnCharL_ne_nil (sep : Char) (l : List Char) : splitOnCharL sep l ≠ [] := by
  induction l with
  | nil => simp [splitOnCharL]
  | cons c rest ih =>
    rw [splitOnCharL]
    by_cases hc : (c == sep) = true
    · simp [hc]
    · rw [Bool.not_eq_true] at hc
      simp only [hc, if_false]
      cases hr : splitOnCharL sep rest with
      | nil => exact absurd hr ih
      | cons p ps => simp

/-- `splitOnDot` never returns an empty list of sentences. -/
lemma splitOnDot_ne_nil (s : String) : splitOnDot s ≠ [] := by
  unfold splitOnDot
  intro h
  exact splitOnCharL_ne_nil '.' s.data (List.map_eq_nil_iff.mp h)

/-- The space-join of a list of at least three parts starts with the first
part, the separator and the second part. -/
lemma pyJoin_space_startsWith (a b x : String) (rest : List String) :
    strStartsWith (pyJoin " " (a :: b :: x :: rest)) (a ++ " " ++ b) = true := by
  unfold strStartsWith
  rw [show pyJoin " " (a :: b :: x :: rest) = a ++ " " ++ (b ++ " " ++ pyJoin " " (x :: rest)) from rfl]
  simp only [String.data_append, List.append_assoc]
  apply listStartsWith_mono
  apply listStartsWith_mono
  exact listStartsWith_append _ _

/-! ### Claim theorems -/

/-- C1: the prompt assembler is deterministic and pure.  `build_page_prompts`
is translated from the source as a total Lean function (the source method
performs no I/O, randomness or mutation), so invoking it twice on identical
registries and page input yields byte-identical `character_1_prompt`,
`character_2_prompt`, `scene_prompt` and `negative_prompt` strings, with no
other effect expressible. -/
theorem build_page_prompts_deterministic :
    ∀ (chars : Characters) (loras : List (String × LoraRecord)) (page : PageData),
      (build_page_prompts chars loras page).character_1_prompt
        = (build_page_prompts chars loras page).character_1_prompt
      ∧ (build_page_prompts chars loras page).character_2_prompt
        = (build_page_prompts chars loras page).character_2_prompt
      ∧ (build_page_prompts chars loras page).scene_prompt
        = (build_page_prompts chars loras page).scene_prompt
      ∧ (build_page_prompts chars loras page).negative_prompt
        = (build_page_prompts chars loras page).negative_prompt
      ∧ build_page_prompts chars loras page = build_page_prompts chars loras page :=
  fun _ _ _ => ⟨rfl, rfl, rfl, rfl, rfl⟩

/-- C9: for every registry and page input, the `negative_prompt` field of the
assembler output is the fixed constant literal of the source, independent of
the scene description, narrative text and registries. -/
theorem negative_prompt_constant :
    ∀ (chars : Characters) (loras : List (String × LoraRecord)) (page : PageData),
      (build_page_prompts chars loras page).negative_prompt =
        "low quality, blurry, extra people, watermark, text, deformed, bad anatomy, multiple faces, distorted perspective" :=
  fun _ _ _ => rfl

/-- The first sample scene description of `test_prompt_generation.py`
(page 1), the scene text quoted by the spec's position-extraction example. -/
def testScene1 : String :=
  "Olive Elmmist, on the right, kneels to examine a white flower glowing softly. She wears her green and brown leather armor and smiles gently. Tobias Dunsmir stands on the left, one hand on his hip, scowling down at his muddy boots. He wears dark blue and silver clothing, and the forest is dense around them, dappled sunlight filtering through the leaves. The mood is contrasting: Olive is serene and Tobias is annoyed."

/-- C3 counterexample: on the quoted scene text the production extractor
`_extract_positioning` assigns Olive Elmmist the position "on the left", not
the claimed "on the right": its co-occurrence test accepts any name occurring
anywhere in the scene prefix that ends 20 characters past the first keyword
occurrence, and Olive is named at the very start of the text. -/
theorem extract_positioning_misattributes_olive :
    explicitPosition (pyLower testScene1) (pyLower "Olive Elmmist") = "on the left"
    ∧ extract_positioning testScene1 "Tobias Dunsmir" "Olive Elmmist"
        = "Tobias Dunsmir on the left, Olive Elmmist on the left"
    ∧ "on the left" ≠ "on the right" :=
  ⟨rfl, rfl, by decide⟩

/-- C3 amended: on the quoted scene text the production extractor assigns
both characters "on the left" (the first keyword of its `elif` chain, since
both names occur before the end of the `on the left` prefix window), while
the test script's window-based helper `_extract_position` yields the claimed
attribution Olive → "on the right", Tobias → "on the left". -/
theorem extract_positioning_on_test_scene :
    extract_positioning testScene1 "Tobias Dunsmir" "Olive Elmmist"
      = "Tobias Dunsmir on the left, Olive Elmmist on the left"
    ∧ extract_position testScene1 "Olive Elmmist" = "on the right"
    ∧ extract_position testScene1 "Tobias Dunsmir" = "on the left" :=
  ⟨rfl, rfl, rfl⟩

/-- C5: the action extractor receives the combined text already lower-cased
but replaces the original-case character name in it, so for any name
containing an upper-case letter the announced stripping is a no-op: the
extracted action keeps the character's name, contradicting the source's own
comment that the name is removed for a cleaner prompt. -/
theorem extract_character_action_keeps_name :
    extract_character_action "olive elmmist kneels to examine a white flower. " "olive elmmist" "Olive Elmmist"
      = "olive elmmist kneels to examine a white flower"
    ∧ containsSub "olive elmmist kneels to examine a white flower" "olive elmmist" = true :=
  ⟨rfl, rfl⟩

/-- C4 counterexample: a scene text with no recognized setting keyword and
no character names does NOT produce the fallback constant: every sentence
then mentions neither character, so every sentence is kept and the scene
text itself is returned. -/
theorem extract_environment_no_fallback :
    hasSettingB (pyLower "A quiet meadow") = false
    ∧ hasCharacterB (pyLower "A quiet meadow") "Olive Elmmist" "Tobias Dunsmir" = false
    ∧ extract_environment "A quiet meadow" "Olive Elmmist" "Tobias Dunsmir" = "A quiet meadow"
    ∧ "A quiet meadow" ≠ "fantasy illustration, cinematic lighting, high detail" :=
  ⟨rfl, rfl, rfl, by decide⟩

/-- C2 counterexample: the production prompt builder `' '.join`s its parts,
so the action and outfit cue are introduced by a space, not a comma, and an
empty action is replaced by the always-appended "standing confidently" slot
rather than omitted. -/
theorem build_character_prompt_space_joined :
    build_character_prompt "OliveElmmist" "0.8" "olive_elmmist" "Olive Elmmist" "kneeling" "green clothing" ""
      = "<lora:OliveElmmist:0.8> olive_elmmist kneeling green clothing"
    ∧ "<lora:OliveElmmist:0.8> olive_elmmist kneeling green clothing"
        ≠ "<lora:OliveElmmist:0.8> olive_elmmist, kneeling, green clothing"
    ∧ build_character_prompt "OliveElmmist" "0.8" "olive_elmmist" "Olive Elmmist" "" "" ""
        = "<lora:OliveElmmist:0.8> olive_elmmist standing confidently" :=
  ⟨rfl, by decide, rfl⟩

/-- One unfolding step of `pyJoin` on a list with at least two parts. -/
lemma pyJoin_cons_cons (sep a b : String) (rest : List String) :
    pyJoin sep (a :: b :: rest) = a ++ sep ++ pyJoin sep (b :: rest) := rfl

/-- The adapter tag, a space and the trigger word, re-associated into the
merged literal form. -/
lemma tag_space_merge (f st tr : String) :
    "<lora:" ++ f ++ ":" ++ st ++ ">" ++ " " ++ tr
      = "<lora:" ++ f ++ ":" ++ st ++ "> " ++ tr := by
  apply str_data_eq
  simp only [String.data_append, List.append_assoc]
  rfl

/-- `_build_character_prompt` as the space-join of one explicit parts list:
the adapter tag, the trigger word, always an action slot, then the optional
outfit cue and prompt keywords. -/
lemma build_character_prompt_eq_pyJoin (f st tr n act out kw : String) :
    build_character_prompt f st tr n act out kw
      = pyJoin " " (("<lora:" ++ f ++ ":" ++ st ++ ">") :: tr ::
          (if act ≠ "" ∧ act ≠ "standing confidently" then act else "standing confidently") ::
          ((if out ≠ "" then [out] else []) ++ (if kw ≠ "" then [kw] else []))) := by
  simp only [build_character_prompt]
  split_ifs <;> simp

/-- Every character prompt starts with its adapter tag followed by a space
and the trigger word. -/
lemma build_character_prompt_startsWith (f st tr n act out kw : String) :
    strStartsWith (build_character_prompt f st tr n act out kw)
      ("<lora:" ++ f ++ ":" ++ st ++ "> " ++ tr) = true := by
  rw [build_character_prompt_eq_pyJoin, ← tag_space_merge]
  exact pyJoin_space_startsWith _ _ _ _

/-- Every character prompt starts with the literal `"<lora:"`. -/
lemma build_character_prompt_startsWith_lora (f st tr n act out kw : String) :
    strStartsWith (build_character_prompt f st tr n act out kw) "<lora:" = true := by
  have h := build_character_prompt_startsWith f st tr n act out kw
  unfold strStartsWith at h ⊢
  have hdata : ("<lora:" ++ f ++ ":" ++ st ++ "> " ++ tr).data
      = "<lora:".data ++ (f.data ++ (":".data ++ (st.data ++ ("> ".data ++ tr.data)))) := by
    simp [String.data_append, List.append_assoc]
  rw [hdata] at h
  exact listStartsWith_shrink _ h

/-- C2 amended: each production character prompt is the SPACE-join of the
adapter tag, the trigger word, an action slot that is always present (the
extracted action, or the literal "standing confidently" when the action is
empty or already the fallback), then the outfit cue and prompt keywords only
when non-empty; the tag and trigger always come first and the output is
never empty.  The comma-introduced optional parts of the original claim
match only the test script's mock, not the production builder. -/
theorem character_prompt_form :
    ∀ (lora_file strength trigger_word char_name action outfit_cue prompt_keywords : String),
      build_character_prompt lora_file strength trigger_word char_name action outfit_cue prompt_keywords
        = pyJoin " " (("<lora:" ++ lora_file ++ ":" ++ strength ++ ">") :: trigger_word ::
            (if action ≠ "" ∧ action ≠ "standing confidently" then action else "standing confidently") ::
            ((if outfit_cue ≠ "" then [outfit_cue] else [])
              ++ (if prompt_keywords ≠ "" then [prompt_keywords] else [])))
      ∧ strStartsWith (build_character_prompt lora_file strength trigger_word char_name action outfit_cue prompt_keywords)
          ("<lora:" ++ lora_file ++ ":" ++ strength ++ "> " ++ trigger_word) = true
      ∧ build_character_prompt lora_file strength trigger_word char_name action outfit_cue prompt_keywords ≠ "" := by
  intro f st tr n act out kw
  refine ⟨build_character_prompt_eq_pyJoin f st tr n act out kw,
    build_character_prompt_startsWith f st tr n act out kw, ?_⟩
  intro h0
  have hlen := congrArg String.length h0
  rw [build_character_prompt_eq_pyJoin, pyJoin_cons_cons] at hlen
  have e1 : ("<lora:").length = 6 := rfl
  have e2 : (" ").length = 1 := rfl
  have e3 : (":").length = 1 := rfl
  have e4 : (">").length = 1 := rfl
  have e5 : ("").length = 0 := rfl
  simp only [String.length_append, e1, e2, e3, e4, e5] at hlen
  omega

/-- C4 amended: when every sentence of the scene description mentions
neither character (in particular when additionally no setting keyword occurs
anywhere), the environment extractor keeps EVERY sentence and returns the
stripped sentences re-joined with ". " — not the fallback constant, which is
produced only when no sentence at all is kept. -/
theorem extract_environment_keeps_all (scene char1_name char2_name : String)
    (h : ∀ sentence ∈ splitOnDot scene,
      hasSettingB (pyLower sentence) = false ∧
      hasCharacterB (pyLower sentence) char1_name char2_name = false) :
    extract_environment scene char1_name char2_name
      = pyJoin ". " ((splitOnDot scene).map pyStrip) := by
  have hmap : (splitOnDot scene).filterMap (fun sentence =>
      if hasSettingB (pyLower sentence)
          || !hasCharacterB (pyLower sentence) char1_name char2_name then
        some (pyStrip sentence)
      else none) = (splitOnDot scene).map pyStrip := by
    apply filterMap_eq_map_of
    intro a ha
    rcases h a ha with ⟨_, h2⟩
    simp [h2]
  have hne : ((splitOnDot scene).map pyStrip).isEmpty = false := by
    cases hsd : splitOnDot scene with
    | nil => exact absurd hsd (splitOnDot_ne_nil scene)
    | cons a l => simp
  simp only [extract_environment]
  rw [hmap, hne]
  simp

/-- C4 amended witness: a concrete keyword-free, name-free scene comes back
as itself, not as the fallback constant. -/
theorem extract_environment_keeps_all_witness :
    extract_environment "A quiet meadow at dusk" "Olive Elmmist" "Tobias Dunsmir"
      = pyJoin ". " ((splitOnDot "A quiet meadow at dusk").map pyStrip) :=
  extract_environment_keeps_all "A quiet meadow at dusk" "Olive Elmmist" "Tobias Dunsmir" (by decide)

/-- C6: when no position keyword of the `elif` chain is attributed to either
(distinct) character, `_extract_positioning` falls back to the fixed
defaults: the first character is placed "on the right" and the second "on
the left". -/
theorem extract_positioning_defaults (scene char1_name char2_name : String)
    (hne : char1_name ≠ char2_name)
    (h1 : ∀ pair ∈ positionKeywordPairs,
      keywordAttributed (pyLower scene) (pyLower char1_name) pair.1 = false)
    (h2 : ∀ pair ∈ positionKeywordPairs,
      keywordAttributed (pyLower scene) (pyLower char2_name) pair.1 = false) :
    extract_positioning scene char1_name char2_name
      = char1_name ++ " on the right, " ++ char2_name ++ " on the left" := by
  have e1 : explicitPosition (pyLower scene) (pyLower char1_name) = "" := by
    unfold explicitPosition
    rw [List.find?_eq_none.mpr (fun p hp => by simp [h1 p hp])]
  have e2 : explicitPosition (pyLower scene) (pyLower char2_name) = "" := by
    unfold explicitPosition
    rw [List.find?_eq_none.mpr (fun p hp => by simp [h2 p hp])]
  simp only [extract_positioning, e1, e2, if_neg hne, if_pos rfl]
  apply str_data_eq
  simp only [String.data_append, List.append_assoc]
  rfl

/-- C6 witness: a scene naming only the second character and containing no
position keyword gets the default right/left assignment. -/
theorem extract_positioning_defaults_witness :
    extract_positioning "Olive Elmmist smiles warmly" "Tobias Dunsmir" "Olive Elmmist"
      = "Tobias Dunsmir on the right, Olive Elmmist on the left" :=
  extract_positioning_defaults "Olive Elmmist smiles warmly" "Tobias Dunsmir" "Olive Elmmist"
    (by decide) (by decide) (by decide)

/-- C7: with the adapter-registration file absent, the loader synthesizes,
for two distinct character names, a registration per character whose trigger
word is the lower-cased underscore-joined display name, whose filename is
the space-stripped display name plus ".safetensors", and whose default
strengths render as 0.8 for the first character and 0.75 for the second;
the loader returns this registry instead of failing. -/
theorem load_lora_config_default_records (chars : Characters)
    (hne : chars.character_1.fantasy_name ≠ chars.character_2.fantasy_name) :
    pyDictGet (load_lora_config_default chars) chars.character_1.fantasy_name
      = some { trigger_word := some (pyReplace (pyLower chars.character_1.fantasy_name) " " "_"),
               lora_filename := some (pyReplace chars.character_1.fantasy_name " " "" ++ ".safetensors"),
               default_strength := some "0.8" }
    ∧ pyDictGet (load_lora_config_default chars) chars.character_2.fantasy_name
      = some { trigger_word := some (pyReplace (pyLower chars.character_2.fantasy_name) " " "_"),
               lora_filename := some (pyReplace chars.character_2.fantasy_name " " "" ++ ".safetensors"),
               default_strength := some "0.75" } := by
  have hb : (chars.character_2.fantasy_name == chars.character_1.fantasy_name) = false :=
    beq_eq_false_iff_ne.mpr (Ne.symm hne)
  constructor
  · simp [load_lora_config_default, pyDictGet, List.find?, hb]
  · simp [load_lora_config_default, pyDictGet, List.find?]

/-- C7 witness: the synthesized default registry for the two concrete
characters of the repository's test data. -/
theorem load_lora_config_default_records_witness :
    pyDictGet (load_lora_config_default
        { character_1 := { fantasy_name := "Tobias Dunsmir" },
          character_2 := { fantasy_name := "Olive Elmmist" } }) "Tobias Dunsmir"
      = some { trigger_word := some "tobias_dunsmir",
               lora_filename := some "TobiasDunsmir.safetensors",
               default_strength := some "0.8" }
    ∧ pyDictGet (load_lora_config_default
        { character_1 := { fantasy_name := "Tobias Dunsmir" },
          character_2 := { fantasy_name := "Olive Elmmist" } }) "Olive Elmmist"
      = some { trigger_word := some "olive_elmmist",
               lora_filename := some "OliveElmmist.safetensors",
               default_strength := some "0.75" } := by
  have h := load_lora_config_default_records
    { character_1 := { fantasy_name := "Tobias Dunsmir" },
      character_2 := { fantasy_name := "Olive Elmmist" } } (by decide)
  exact ⟨h.1.trans (by decide), h.2.trans (by decide)⟩

/-- C8: the only raise on the adapter path is the registration check of the
LoRA image generator, which fails exactly when no registry was loaded or a
referenced character's entry is missing or empty; the prompt assembler
itself is a total function (its Python original reads every registry value
through defaulted access, so there is no failure path), and it always
produces character prompts that begin with an adapter tag, resolving a
missing registration via the synthesized defaults. -/
theorem adapter_check_iff_and_total_assembly :
    (∀ (loras : Option (List (String × LoraRecord))) (char1_name char2_name : String),
      generate_story_image_check loras char1_name char2_name = Except.ok () ↔
        ∃ l, loras = some l ∧ loraEntryTruthy (pyDictGet l char1_name) = true
          ∧ loraEntryTruthy (pyDictGet l char2_name) = true)
    ∧ (∀ (chars : Characters) (loras : List (String × LoraRecord)) (page : PageData),
        strStartsWith (build_page_prompts chars loras page).character_1_prompt "<lora:" = true
        ∧ strStartsWith (build_page_prompts chars loras page).character_2_prompt "<lora:" = true) := by
  constructor
  · intro loras c1 c2
    cases loras with
    | none => simp [generate_story_image_check]
    | some l =>
      by_cases ht1 : loraEntryTruthy (pyDictGet l c1) = true
      · by_cases ht2 : loraEntryTruthy (pyDictGet l c2) = true
        · simp [generate_story_image_check, ht1, ht2]
        · simp [generate_story_image_check, ht1, ht2]
      · simp [generate_story_image_check, ht1]
  · intro chars loras page
    constructor
    · simp only [build_page_prompts]
      exact build_character_prompt_startsWith_lora _ _ _ _ _ _ _
    · simp only [build_page_prompts]
      exact build_character_prompt_startsWith_lora _ _ _ _ _ _ _

/-- C10: before any heuristic extraction the compositor rewrites the
sentence-initial pronouns of the scene description by exact substring
replacement, unconditionally mapping "He"/"His" to character 1 and
"She"/"Her" to character 2 in possessive-aware form; a text containing none
of the four six-character patterns — in particular a pronoun at the very
start of the text, or one not preceded by ". " — is left unchanged. -/
theorem pronoun_rewrite_exact :
    (∀ (scene char1_name char2_name : String),
      containsSub scene ". She " = false → containsSub scene ". He " = false →
      containsSub scene ". Her " = false → containsSub scene ". His " = false →
      pronoun_rewrite scene char1_name char2_name = scene)
    ∧ pronoun_rewrite "She waits. He nods. His hat fell. Her cloak fell. The end"
        "Tobias Dunsmir" "Olive Elmmist"
      = "She waits. Tobias Dunsmir nods. Tobias Dunsmir\x27s hat fell. Olive Elmmist\x27s cloak fell. The end" := by
  constructor
  · intro scene c1 c2 h1 h2 h3 h4
    simp only [pronoun_rewrite]
    rw [pyReplace_of_not_contains scene ". She " (". " ++ c2 ++ " ") h1,
      pyReplace_of_not_contains scene ". He " (". " ++ c1 ++ " ") h2,
      pyReplace_of_not_contains scene ". Her " (". " ++ c2 ++ "\x27s ") h3,
      pyReplace_of_not_contains scene ". His " (". " ++ c1 ++ "\x27s ") h4]
  · rfl

/-- C10 witness: a pronoun at the very start of the text, not preceded by
". ", is left untouched. -/
theorem pronoun_rewrite_exact_witness :
    pronoun_rewrite "He stands at the door" "Tobias Dunsmir" "Olive Elmmist"
      = "He stands at the door" :=
  pronoun_rewrite_exact.1 "He stands at the door" "Tobias Dunsmir" "Olive Elmmist"
    rfl rfl rfl rfl
